import Mathlib

/-!
Shallow embedding of the Session & Dispatch Orchestrator of `src/API/server.py`
(DATAR integration server).

Python-side state is the pair of module-level dicts `sessions_store` and
`sessions_metadata`; both are modelled as partial maps `String → Option _`.
External collaborators (the Google ADK runner's session allocation, the agent
execution run, and history retrieval) are opaque capabilities, passed in as
parameters whose `Except` results model Python exceptions.  Python's `str` maps
to `String`; `str.strip()` is modelled by `pyStrip` (drop Unicode whitespace on
both ends) and the slice `s[:n]` by `pySlice` (first `n` characters).
-/

/-- A value of `AGENTS_METADATA`: display metadata of one agent. -/
structure AgentMeta where
  nombre : String
  descripcion : String
  color : String
  emoji : Option String
deriving Repr, DecidableEq

/-- A Google ADK session object as used by the server: `user_id` and `id`. -/
structure ADKSession where
  user_id : String
  id : String
deriving Repr, DecidableEq

/-- One record of `sessions_metadata`: `created_at`, `last_activity`,
`message_count`. -/
structure SessionMeta where
  created_at : String
  last_activity : String
  message_count : Nat
deriving Repr, DecidableEq

/-- The module-level mutable state: `sessions_store` (ADK session handles) and
`sessions_metadata`, both keyed by session id. -/
structure ServerState where
  sessions_store : String → Option ADKSession
  sessions_metadata : String → Option SessionMeta

/-- A `part` of an agent event's `content`: `text` is `none` when the attribute
is absent or `None`. -/
structure EventPart where
  text : Option String
deriving Repr, DecidableEq

/-- An event yielded by `runner.run`: `content` is `none` when the event has no
`content`/`parts` attributes. -/
structure AgentEvent where
  content : Option (List EventPart)
deriving Repr, DecidableEq

/-- Request body of `POST /api/chat` (`ChatRequest`). -/
structure ChatRequest where
  message : String
  session_id : Option String
  agent_id : Option String
deriving Repr, DecidableEq

/-- Response body of `POST /api/chat` (`ChatResponse`). -/
structure ChatResponse where
  response : String
  agent_name : String
  session_id : String
  timestamp : String
deriving Repr, DecidableEq

/-- Response body of the per-agent endpoints (`AgentResponse`). -/
structure AgentResponse where
  response : String
  agent_name : String
  agent_id : String
deriving Repr, DecidableEq

/-- A FastAPI `HTTPException` as observed by the client. -/
structure HTTPError where
  status_code : Nat
  detail : String
deriving Repr, DecidableEq

/-- One message entry built by `get_session_history`. -/
structure HistoryMessage where
  role : String
  content : Option String
  timestamp : String
deriving Repr, DecidableEq

/-- Response body of `GET /api/sessions/{id}` (`SessionHistoryResponse`). -/
structure SessionHistoryResponse where
  session_id : String
  messages : List HistoryMessage
  created_at : String
  message_count : Nat
deriving Repr, DecidableEq

/-- A history turn as returned by the ADK history capability: optional user
and model messages, each a list of parts. -/
structure HistoryTurn where
  user_message : Option (List EventPart)
  model_message : Option (List EventPart)
deriving Repr, DecidableEq

/-- Python `str.strip()` on the character list: drop whitespace from both
ends. -/
def stripChars (l : List Char) : List Char :=
  ((l.dropWhile Char.isWhitespace).reverse.dropWhile Char.isWhitespace).reverse

/-- Python `s.strip()`. -/
def pyStrip (s : String) : String :=
  ⟨stripChars s.data⟩

/-- Python slice `s[:n]`: the first `n` characters of `s`. -/
def pySlice (s : String) (n : Nat) : String :=
  ⟨s.data.take n⟩

/-- `get_or_create_session` (server.py lines 135–167).  `alloc` is the result
of `runner.session_service.create_session` at this call; `now` stands for
`datetime.now().isoformat()`.  Returns the state after the call together with
either the session object or the `RuntimeError` message raised. -/
def get_or_create_session (alloc : Except String ADKSession) (now : String)
    (s : ServerState) (session_id : String) :
    ServerState × Except String ADKSession :=
  match s.sessions_store session_id with
  | some sess =>
      ({ s with sessions_metadata := fun k =>
          if k = session_id then
            (s.sessions_metadata k).map (fun m => { m with last_activity := now })
          else s.sessions_metadata k }, .ok sess)
  | none =>
      match alloc with
      | .error e => (s, .error ("Error al crear sesión: " ++ e))
      | .ok sess =>
          let s1 : ServerState :=
            { sessions_store := fun k =>
                if k = session_id then some sess else s.sessions_store k,
              sessions_metadata := fun k =>
                if k = session_id then
                  some { created_at := now, last_activity := now, message_count := 0 }
                else s.sessions_metadata k }
          ({ s1 with sessions_metadata := fun k =>
              if k = session_id then
                (s1.sessions_metadata k).map (fun m => { m with last_activity := now })
              else s1.sessions_metadata k }, .ok sess)

/-- The routed message `mensaje_completo` (server.py lines 185–191): when a
truthy `agent_id` resolves in `AGENTS_METADATA`, prefix the directed-to
annotation; otherwise the raw message. -/
def mensaje_completo (registry : String → Option AgentMeta)
    (agent_id : Option String) (message : String) : String :=
  match agent_id with
  | none => message
  | some aid =>
      if aid = "" then message
      else
        match registry aid with
        | some meta => "[Dirigido a " ++ meta.nombre ++ "]: " ++ message
        | none => message

/-- The body of the inner aggregation loop (line 207–208): append `part.text`
to the accumulator when it is present and truthy. -/
def appendPartText (acc : String) (p : EventPart) : String :=
  match p.text with
  | none => acc
  | some t => if t = "" then acc else acc ++ t

/-- The body of the outer aggregation loop (lines 205–208): events without
`content`/`parts` contribute nothing. -/
def appendEventText (acc : String) (ev : AgentEvent) : String :=
  match ev.content with
  | none => acc
  | some parts => parts.foldl appendPartText acc

/-- The aggregation loop of `send_message_to_agent` (lines 197–208):
concatenate, over all events and parts in order, every truthy `part.text`. -/
def collectText (events : List AgentEvent) : String :=
  events.foldl appendEventText ""

/-- The truthy text fragments of one event's parts, in order. -/
def partTexts (parts : List EventPart) : List String :=
  parts.filterMap (fun p =>
    match p.text with
    | none => none
    | some t => if t = "" then none else some t)

/-- The text fragments the aggregation loop appends, in order. -/
def eventTexts (events : List AgentEvent) : List String :=
  events.flatMap (fun ev =>
    match ev.content with
    | none => []
    | some parts => partTexts parts)

/-- The default response (line 220) used when the collected text is empty or
whitespace-only. -/
def fallbackResponse (rootName : String) : String :=
  "[" ++ rootName ++ "] procesó tu mensaje, pero no generó una respuesta de texto."

/-- The metadata update of lines 213–216: when the session id has a metadata
record, increment `message_count` and stamp `last_activity`. -/
def bumpMeta (now : String) (session_id : String) (s : ServerState) :
    ServerState :=
  { s with sessions_metadata := fun k =>
      if k = session_id then
        (s.sessions_metadata k).map (fun m =>
          { m with message_count := m.message_count + 1,
                   last_activity := now })
      else s.sessions_metadata k }

/-- `send_message_to_agent` (server.py lines 169–222).  `capability` models
`runner.run` as a function of the routed message, returning the sequence of
events or the exception raised during the run.  Returns the state after the
call and either the response text or the `RuntimeError` message. -/
def send_message_to_agent (registry : String → Option AgentMeta)
    (rootName : String) (alloc : Except String ADKSession)
    (capability : String → Except String (List AgentEvent)) (now : String)
    (s : ServerState) (session_id : String) (message : String)
    (agent_id : Option String) : ServerState × Except String String :=
  match get_or_create_session alloc now s session_id with
  | (s1, .error e) => (s1, .error e)
  | (s1, .ok _sess) =>
      match capability (mensaje_completo registry agent_id message) with
      | .error e => (s1, .error ("Error al ejecutar el agente: " ++ e))
      | .ok events =>
          let respuesta_texto := collectText events
          let s2 := bumpMeta now session_id s1
          let final :=
            if respuesta_texto = "" ∨ pyStrip respuesta_texto = "" then
              fallbackResponse rootName
            else respuesta_texto
          (s2, .ok (pyStrip final))

/-- `request.session_id or str(uuid.uuid4())` (server.py line 287): the given
id when truthy, a fresh uuid otherwise. -/
def resolve_session_id (fresh_id : String) (session_id : Option String) :
    String :=
  match session_id with
  | none => fresh_id
  | some sid => if sid = "" then fresh_id else sid

/-- The agent display name resolution of server.py lines 304–307: the hinted
agent's `nombre` when the hint is truthy and registered, else the root
agent's name. -/
def resolve_agent_name (registry : String → Option AgentMeta)
    (rootName : String) (agent_id : Option String) : String :=
  match agent_id with
  | none => rootName
  | some aid =>
      if aid = "" then rootName
      else
        match registry aid with
        | some meta => meta.nombre
        | none => rootName

/-- `chat_with_agent`, the handler of `POST /api/chat` (server.py lines
271–320).  `fresh_id` models `str(uuid.uuid4())`; `maxMsgLen` and `maxRespLen`
are `MAX_MESSAGE_LENGTH` and `MAX_RESPONSE_LENGTH`. -/
def chat_with_agent (registry : String → Option AgentMeta) (rootName : String)
    (alloc : Except String ADKSession)
    (capability : String → Except String (List AgentEvent)) (now : String)
    (fresh_id : String) (maxMsgLen maxRespLen : Nat) (s : ServerState)
    (request : ChatRequest) : ServerState × Except HTTPError ChatResponse :=
  if request.message = "" ∨ pyStrip request.message = "" then
    (s, .error ⟨400, "El mensaje no puede estar vacío"⟩)
  else if request.message.length > maxMsgLen then
    (s, .error ⟨400,
      "El mensaje no puede exceder " ++ toString maxMsgLen ++ " caracteres"⟩)
  else
    let session_id := resolve_session_id fresh_id request.session_id
    match send_message_to_agent registry rootName alloc capability now s
        session_id request.message request.agent_id with
    | (s1, .error e) =>
        (s1, .error ⟨500, "Error al generar respuesta: " ++ e⟩)
    | (s1, .ok response_text) =>
        if response_text = "" then
          (s1, .error ⟨500,
            "Error al generar respuesta: La respuesta del agente llegó vacía."⟩)
        else
          let truncated := pySlice response_text maxRespLen
          let agent_name := resolve_agent_name registry rootName
            request.agent_id
          (s1, .ok ⟨truncated, agent_name, session_id, now⟩)

/-- The common body of the per-agent endpoints (e.g. `chat_gente_pasto`,
server.py lines 459–482): mint a fresh session id, call
`send_message_to_agent` with the endpoint's fixed `agent_id`, and return the
raw response text — no input validation and no truncation. -/
def chat_agent_endpoint (agent_id : String)
    (registry : String → Option AgentMeta) (rootName : String)
    (alloc : Except String ADKSession)
    (capability : String → Except String (List AgentEvent)) (now : String)
    (fresh_id : String) (s : ServerState) (message : String) :
    ServerState × Except HTTPError AgentResponse :=
  match send_message_to_agent registry rootName alloc capability now s
      fresh_id message (some agent_id) with
  | (s1, .error e) => (s1, .error ⟨500, "Error: " ++ e⟩)
  | (s1, .ok response_text) =>
      match registry agent_id with
      | some meta => (s1, .ok ⟨response_text, meta.nombre, agent_id⟩)
      | none => (s1, .error ⟨500, "Error: " ++ agent_id⟩)

/-- `chat_gente_pasto`, the handler of `POST /api/chat/gente_pasto`. -/
def chat_gente_pasto (registry : String → Option AgentMeta) (rootName : String)
    (alloc : Except String ADKSession)
    (capability : String → Except String (List AgentEvent)) (now : String)
    (fresh_id : String) (s : ServerState) (message : String) :
    ServerState × Except HTTPError AgentResponse :=
  chat_agent_endpoint "gente_pasto" registry rootName alloc capability now
    fresh_id s message

/-- The message list built by `get_session_history` (lines 360–374) from the
ADK history turns: per turn, a user entry then an assistant entry, each with
`content = parts[0].text if parts else ""` and the metadata's last-activity
timestamp. -/
def historyMessages (turns : List HistoryTurn) (ts : String) :
    List HistoryMessage :=
  turns.flatMap (fun turn =>
    (match turn.user_message with
     | none => []
     | some parts =>
         [⟨"user", (match parts with | [] => some "" | p :: _ => p.text), ts⟩]) ++
    (match turn.model_message with
     | none => []
     | some parts =>
         [⟨"assistant", (match parts with | [] => some "" | p :: _ => p.text), ts⟩]))

/-- `get_session_history`, the handler of `GET /api/sessions/{id}` (server.py
lines 335–389).  `getHistory` models `runner.session_service.get_history` for
this session: an exception, or `none` when the result is falsy / has no
`turns`, or the list of turns. -/
def get_session_history
    (getHistory : Except String (Option (List HistoryTurn)))
    (s : ServerState) (session_id : String) : SessionHistoryResponse :=
  match s.sessions_store session_id with
  | none => ⟨session_id, [], "", 0⟩
  | some _sess =>
      match getHistory with
      | .error _e => ⟨session_id, [], "", 0⟩
      | .ok history =>
          let meta := s.sessions_metadata session_id
          let messages :=
            match history with
            | none => []
            | some turns =>
                historyMessages turns
                  ((meta.map (·.last_activity)).getD "")
          ⟨session_id, messages, (meta.map (·.created_at)).getD "",
            messages.length⟩

/-- `delete_session`, the handler of `DELETE /api/sessions/{id}` (server.py
lines 391–404): remove the id from both maps; report whether anything was
removed. -/
def delete_session (s : ServerState) (session_id : String) :
    ServerState × String :=
  let deleted := (s.sessions_store session_id).isSome
      || (s.sessions_metadata session_id).isSome
  ({ sessions_store := fun k =>
        if k = session_id then none else s.sessions_store k,
     sessions_metadata := fun k =>
        if k = session_id then none else s.sessions_metadata k },
   if deleted then "Sesión " ++ session_id ++ " eliminada exitosamente"
   else "Sesión " ++ session_id ++ " no encontrada")

/-- The Session Store invariant of the spec: an id has an execution handle
exactly when it has a metadata record. -/
def StoreInv (s : ServerState) : Prop :=
  ∀ k, (s.sessions_store k).isSome ↔ (s.sessions_metadata k).isSome

/-- The `message_count` recorded for a session id, if any. -/
def msgCount (s : ServerState) (k : String) : Option Nat :=
  (s.sessions_metadata k).map (·.message_count)

/-- The empty server state (both dicts empty), as at process start. -/
def emptyState : ServerState :=
  ⟨fun _ => none, fun _ => none⟩

/-- A concrete one-entry registry used to instantiate theorems. -/
def sampleRegistry : String → Option AgentMeta := fun k =>
  if k = "gente_pasto" then
    some ⟨"Gente Pasto", "Especialista en vegetación", "#8BC34A", some "🌿"⟩
  else none

/-- A concrete server state with one session `"s1"` that has completed one
dispatch. -/
def oneSessionState : ServerState :=
  ⟨fun k => if k = "s1" then some ⟨"default_user", "adk-1"⟩ else none,
   fun k => if k = "s1" then some ⟨"t0", "t1", 1⟩ else none⟩

/-! ### Helper lemmas about `stripChars` / `pyStrip` -/

theorem stripChars_eq_rdropWhile (l : List Char) :
    stripChars l =
      List.rdropWhile Char.isWhitespace (l.dropWhile Char.isWhitespace) := by
  rw [stripChars, List.rdropWhile]

theorem stripChars_eq_nil_iff (l : List Char) :
    stripChars l = [] ↔ ∀ c ∈ l, c.isWhitespace := by
  rw [stripChars_eq_rdropWhile, List.rdropWhile_eq_nil_iff]
  constructor
  · intro h c hc
    rw [← List.takeWhile_append_dropWhile (p := Char.isWhitespace) (l := l)]
      at hc
    rcases List.mem_append.1 hc with h1 | h2
    · exact List.mem_takeWhile_imp h1
    · exact h c h2
  · intro h c hc
    exact h c ((List.dropWhile_sublist Char.isWhitespace).subset hc)

theorem stripChars_head_not (l : List Char) (c : Char) (t : List Char)
    (h : stripChars l = c :: t) : c.isWhitespace = false := by
  rw [stripChars_eq_rdropWhile] at h
  have hpre := List.rdropWhile_prefix Char.isWhitespace
    (l.dropWhile Char.isWhitespace)
  rw [h] at hpre
  obtain ⟨u, hu⟩ := hpre
  have h0 : 0 < (l.dropWhile Char.isWhitespace).length := by
    rw [← hu]; simp
  have hget := List.dropWhile_get_zero_not Char.isWhitespace l h0
  have hc : (l.dropWhile Char.isWhitespace).get ⟨0, h0⟩ = c := by
    have : l.dropWhile Char.isWhitespace = c :: (t ++ u) := by
      rw [← hu]; simp
    simp [this]
  rw [hc] at hget
  simpa using hget

theorem stripChars_getLast?_not (l : List Char) (c : Char)
    (h : (stripChars l).getLast? = some c) : c.isWhitespace = false := by
  rw [stripChars_eq_rdropWhile] at h
  have hne : List.rdropWhile Char.isWhitespace
      (l.dropWhile Char.isWhitespace) ≠ [] := by
    intro hnil
    rw [hnil] at h
    simp at h
  have hlast := List.rdropWhile_last_not Char.isWhitespace
    (l.dropWhile Char.isWhitespace) hne
  have heq := List.getLast?_eq_getLast _ hne
  rw [h] at heq
  rw [← Option.some_inj.1 heq] at hlast
  simpa using hlast

theorem pyStrip_data (s : String) : (pyStrip s).data = stripChars s.data := rfl

theorem data_append (a b : String) : (a ++ b).data = a.data ++ b.data :=
  String.data_append a b

theorem pyStrip_eq_empty_iff (s : String) :
    pyStrip s = "" ↔ ∀ c ∈ s.data, c.isWhitespace := by
  rw [← stripChars_eq_nil_iff]
  constructor
  · intro h
    have := congrArg String.data h
    rwa [pyStrip_data] at this
  · intro h
    exact String.ext (by rwa [pyStrip_data])

theorem pyStrip_empty_of_empty (s : String) (h : s = "") : pyStrip s = "" := by
  rw [h]; rfl

/-- Dropping whitespace from both ends of a list that starts and ends with
non-whitespace characters changes nothing. -/
theorem stripChars_of_boundary (a z : Char) (m : List Char)
    (ha : a.isWhitespace = false) (hz : z.isWhitespace = false) :
    stripChars (a :: (m ++ [z])) = a :: (m ++ [z]) := by
  unfold stripChars
  rw [List.dropWhile_cons, if_neg (by simp [ha])]
  rw [show (a :: (m ++ [z])).reverse = z :: (m.reverse ++ [a]) by simp]
  rw [List.dropWhile_cons, if_neg (by simp [hz])]
  simp

theorem fallbackResponse_data (n : String) :
    (fallbackResponse n).data =
      '[' :: ((n.data ++
        ("] procesó tu mensaje, pero no generó una respuesta de texto").data)
        ++ ['.']) := by
  show (("[" ++ n ++
    "] procesó tu mensaje, pero no generó una respuesta de texto.").data = _)
  rw [data_append, data_append]
  simp

theorem pyStrip_fallbackResponse (n : String) :
    pyStrip (fallbackResponse n) = fallbackResponse n := by
  apply String.ext
  rw [pyStrip_data, fallbackResponse_data]
  exact stripChars_of_boundary '[' '.' _ (by decide) (by decide)

theorem fallbackResponse_ne_empty (n : String) : fallbackResponse n ≠ "" := by
  intro h
  have := congrArg String.data h
  rw [fallbackResponse_data] at this
  simp at this

/-! ### The aggregation loop concatenates the fragments in order -/

theorem foldl_appendPartText_data (parts : List EventPart) (acc : String) :
    (parts.foldl appendPartText acc).data =
      acc.data ++ ((partTexts parts).map String.data).flatten := by
  induction parts generalizing acc with
  | nil => simp [partTexts]
  | cons p ps ih =>
    rw [List.foldl_cons, ih]
    cases hp : p.text with
    | none => simp [partTexts, appendPartText, hp]
    | some t =>
      by_cases ht : t = ""
      · simp [partTexts, appendPartText, hp, ht]
      · simp [partTexts, appendPartText, hp, ht, data_append]

theorem foldl_appendEventText_data (events : List AgentEvent) (acc : String) :
    (events.foldl appendEventText acc).data =
      acc.data ++ ((eventTexts events).map String.data).flatten := by
  induction events generalizing acc with
  | nil => simp [eventTexts]
  | cons ev evs ih =>
    rw [List.foldl_cons, ih]
    cases hc : ev.content with
    | none => simp [eventTexts, appendEventText, hc]
    | some parts =>
      simp [eventTexts, appendEventText, hc, foldl_appendPartText_data]

/-- The response text accumulated by the run loop is exactly the concatenation
of the truthy text fragments of all events, in emission order. -/
theorem collectText_eq_join (events : List AgentEvent) :
    collectText events = String.join (eventTexts events) := by
  apply String.ext
  rw [String.data_join, collectText, foldl_appendEventText_data]
  rfl

/-! ### Metadata effects of `get_or_create_session` -/

theorem get_or_create_session_error (alloc : Except String ADKSession)
    (now : String) (s : ServerState) (sid e : String)
    (hstore : s.sessions_store sid = none) (halloc : alloc = .error e) :
    get_or_create_session alloc now s sid =
      (s, .error ("Error al crear sesión: " ++ e)) := by
  simp [get_or_create_session, hstore, halloc]

theorem get_or_create_session_msgCount (alloc : Except String ADKSession)
    (now : String) (s : ServerState) (sid k : String) :
    msgCount (get_or_create_session alloc now s sid).1 k = msgCount s k
    ∨ (k = sid ∧ s.sessions_store sid = none
        ∧ msgCount (get_or_create_session alloc now s sid).1 k = some 0) := by
  unfold get_or_create_session msgCount
  cases hstore : s.sessions_store sid with
  | some sess =>
    left
    by_cases hk : k = sid
    · subst hk
      cases hm : s.sessions_metadata k <;> simp [hm]
    · simp [hk]
  | none =>
    cases halloc : alloc with
    | error e => left; simp
    | ok sess =>
      by_cases hk : k = sid
      · subst hk
        right
        refine ⟨rfl, rfl, ?_⟩
        simp
      · left; simp [hk]

theorem get_or_create_session_StoreInv (alloc : Except String ADKSession)
    (now : String) (s : ServerState) (sid : String) (hinv : StoreInv s) :
    StoreInv (get_or_create_session alloc now s sid).1 := by
  intro k
  unfold get_or_create_session
  cases hstore : s.sessions_store sid with
  | some sess =>
    by_cases hk : k = sid
    · subst hk
      simpa using hinv k
    · simpa [hk] using hinv k
  | none =>
    cases halloc : alloc with
    | error e => exact hinv k
    | ok sess =>
      by_cases hk : k = sid
      · subst hk; simp
      · simpa [hk] using hinv k

/-! ### Behaviour of `send_message_to_agent` -/

theorem bumpMeta_StoreInv (now sid : String) (s : ServerState)
    (hinv : StoreInv s) : StoreInv (bumpMeta now sid s) := by
  intro k
  unfold bumpMeta
  by_cases hk : k = sid
  · subst hk
    simpa using hinv k
  · simpa [hk] using hinv k

/-- On an execution fault, `send_message_to_agent` propagates the wrapped
error and performs no state change past session resolution. -/
theorem send_message_to_agent_fault (registry : String → Option AgentMeta)
    (rootName : String) (alloc : Except String ADKSession)
    (capability : String → Except String (List AgentEvent))
    (now : String) (s : ServerState) (session_id message : String)
    (agent_id : Option String) (sess : ADKSession) (err : String)
    (hses : (get_or_create_session alloc now s session_id).2 = .ok sess)
    (hrun : capability (mensaje_completo registry agent_id message)
        = .error err) :
    send_message_to_agent registry rootName alloc capability now s session_id
        message agent_id
      = ((get_or_create_session alloc now s session_id).1,
         .error ("Error al ejecutar el agente: " ++ err)) := by
  unfold send_message_to_agent
  rcases hg : get_or_create_session alloc now s session_id with ⟨s1, r⟩
  rw [hg] at hses
  simp only at hses
  subst hses
  simp [hrun, hg]

/-- On a successful run, `send_message_to_agent` bumps the metadata and
returns the stripped aggregate (or fallback). -/
theorem send_message_to_agent_ok (registry : String → Option AgentMeta)
    (rootName : String) (alloc : Except String ADKSession)
    (capability : String → Except String (List AgentEvent))
    (now : String) (s : ServerState) (session_id message : String)
    (agent_id : Option String) (sess : ADKSession) (events : List AgentEvent)
    (hses : (get_or_create_session alloc now s session_id).2 = .ok sess)
    (hrun : capability (mensaje_completo registry agent_id message)
        = .ok events) :
    send_message_to_agent registry rootName alloc capability now s session_id
        message agent_id
      = (bumpMeta now session_id
            (get_or_create_session alloc now s session_id).1,
         .ok (pyStrip
            (if collectText events = "" ∨ pyStrip (collectText events) = ""
             then fallbackResponse rootName else collectText events))) := by
  unfold send_message_to_agent
  rcases hg : get_or_create_session alloc now s session_id with ⟨s1, r⟩
  rw [hg] at hses
  simp only at hses
  subst hses
  simp [hrun, hg]

/-- `send_message_to_agent` preserves the Session Store pairing invariant. -/
theorem send_message_to_agent_StoreInv (registry : String → Option AgentMeta)
    (rootName : String) (alloc : Except String ADKSession)
    (capability : String → Except String (List AgentEvent))
    (now : String) (s : ServerState) (session_id message : String)
    (agent_id : Option String) (hinv : StoreInv s) :
    StoreInv (send_message_to_agent registry rootName alloc capability now s
        session_id message agent_id).1 := by
  have hinv1 : StoreInv (get_or_create_session alloc now s session_id).1 :=
    get_or_create_session_StoreInv alloc now s session_id hinv
  unfold send_message_to_agent
  rcases hg : get_or_create_session alloc now s session_id with ⟨s1, r⟩
  rw [hg] at hinv1
  cases r with
  | error e => simpa using hinv1
  | ok sess =>
    cases hrun : capability (mensaje_completo registry agent_id message) with
    | error e => simpa [hrun] using hinv1
    | ok events =>
      simpa [hrun] using bumpMeta_StoreInv now session_id s1 hinv1

/-! ### Shared concrete instances for witnesses -/

theorem emptyState_StoreInv : StoreInv emptyState := fun _ => Iff.rfl

theorem oneSessionState_StoreInv : StoreInv oneSessionState := by
  intro k
  by_cases h : k = "s1" <;> simp [oneSessionState, h]

/-! ### Claims -/

/-- C1: when the Agent Execution Capability raises during the run, the
dispatch aborts with the wrapped execution error and no metadata is mutated
past session resolution: every session that had a metadata record keeps its
exact `message_count`, and a session resolved fresh in this dispatch is left
at `message_count = 0` — so `message_count` counts only dispatches that reach
Completed.  (Session resolution itself may stamp `last_activity`, which the
spec requires on every dispatch.) -/
theorem claim_C1_execution_fault_no_count_update
    (registry : String → Option AgentMeta) (rootName : String)
    (alloc : Except String ADKSession)
    (capability : String → Except String (List AgentEvent))
    (now : String) (s : ServerState) (session_id message : String)
    (agent_id : Option String) (sess : ADKSession) (err : String)
    (hinv : StoreInv s)
    (hses : (get_or_create_session alloc now s session_id).2 = .ok sess)
    (hrun : capability (mensaje_completo registry agent_id message)
        = .error err) :
    (send_message_to_agent registry rootName alloc capability now s session_id
        message agent_id).2
      = .error ("Error al ejecutar el agente: " ++ err)
    ∧ (send_message_to_agent registry rootName alloc capability now s
        session_id message agent_id).1
      = (get_or_create_session alloc now s session_id).1
    ∧ (∀ k m, s.sessions_metadata k = some m →
        msgCount (send_message_to_agent registry rootName alloc capability now
          s session_id message agent_id).1 k = some m.message_count)
    ∧ (s.sessions_metadata session_id = none →
        msgCount (send_message_to_agent registry rootName alloc capability now
            s session_id message agent_id).1 session_id = none
        ∨ msgCount (send_message_to_agent registry rootName alloc capability
            now s session_id message agent_id).1 session_id = some 0) := by
  have hsend := send_message_to_agent_fault registry rootName alloc capability
    now s session_id message agent_id sess err hses hrun
  rw [hsend]
  refine ⟨rfl, rfl, ?_, ?_⟩
  · intro k m hm
    rcases get_or_create_session_msgCount alloc now s session_id k with
      h | ⟨hk, hfresh, _⟩
    · rw [h]
      simp [msgCount, hm]
    · exfalso
      subst hk
      have h1 := (hinv k).2
      rw [hm, hfresh] at h1
      simp at h1
  · intro hnone
    rcases get_or_create_session_msgCount alloc now s session_id session_id
      with h | ⟨_, _, h0⟩
    · left
      rw [h]
      simp [msgCount, hnone]
    · right
      exact h0

/-- Witness for C1 at a concrete faulting capability over `oneSessionState`. -/
theorem claim_C1_execution_fault_no_count_update_witness :
    (send_message_to_agent sampleRegistry "DATAR"
        (.ok ⟨"default_user", "adk-1"⟩) (fun _ => .error "boom") "t2"
        oneSessionState "s1" "hola" none).2
      = .error ("Error al ejecutar el agente: " ++ "boom")
    ∧ (send_message_to_agent sampleRegistry "DATAR"
        (.ok ⟨"default_user", "adk-1"⟩) (fun _ => .error "boom") "t2"
        oneSessionState "s1" "hola" none).1
      = (get_or_create_session (.ok ⟨"default_user", "adk-1"⟩) "t2"
          oneSessionState "s1").1
    ∧ (∀ k m, oneSessionState.sessions_metadata k = some m →
        msgCount (send_message_to_agent sampleRegistry "DATAR"
          (.ok ⟨"default_user", "adk-1"⟩) (fun _ => .error "boom") "t2"
          oneSessionState "s1" "hola" none).1 k = some m.message_count)
    ∧ (oneSessionState.sessions_metadata "s1" = none →
        msgCount (send_message_to_agent sampleRegistry "DATAR"
            (.ok ⟨"default_user", "adk-1"⟩) (fun _ => .error "boom") "t2"
            oneSessionState "s1" "hola" none).1 "s1" = none
        ∨ msgCount (send_message_to_agent sampleRegistry "DATAR"
            (.ok ⟨"default_user", "adk-1"⟩) (fun _ => .error "boom") "t2"
            oneSessionState "s1" "hola" none).1 "s1" = some 0) :=
  claim_C1_execution_fault_no_count_update sampleRegistry "DATAR"
    (.ok ⟨"default_user", "adk-1"⟩) (fun _ => .error "boom") "t2"
    oneSessionState "s1" "hola" none ⟨"default_user", "adk-1"⟩ "boom"
    oneSessionState_StoreInv (by simp [get_or_create_session, oneSessionState])
    rfl

/-- C3: the two session maps are always in lockstep.  `get_or_create_session`
preserves the pairing invariant and, when allocation fails for a new id,
leaves the store exactly as it was (all-or-nothing creation); `delete_session`
removes the handle and the metadata together and touches no other id; and the
dispatch path preserves the pairing invariant as well. -/
theorem claim_C3_store_pairing (alloc : Except String ADKSession)
    (now : String) (s : ServerState) (sid : String) (hinv : StoreInv s) :
    StoreInv (get_or_create_session alloc now s sid).1
    ∧ (∀ e, alloc = .error e → s.sessions_store sid = none →
        get_or_create_session alloc now s sid
          = (s, .error ("Error al crear sesión: " ++ e)))
    ∧ StoreInv (delete_session s sid).1
    ∧ (delete_session s sid).1.sessions_store sid = none
    ∧ (delete_session s sid).1.sessions_metadata sid = none
    ∧ (∀ k, k ≠ sid →
        (delete_session s sid).1.sessions_store k = s.sessions_store k
        ∧ (delete_session s sid).1.sessions_metadata k
            = s.sessions_metadata k)
    ∧ (∀ (registry : String → Option AgentMeta) (rootName : String)
          (capability : String → Except String (List AgentEvent))
          (message : String) (agent_id : Option String),
        StoreInv (send_message_to_agent registry rootName alloc capability now
          s sid message agent_id).1) := by
  refine ⟨get_or_create_session_StoreInv alloc now s sid hinv,
    ?_, ?_, ?_, ?_, ?_, ?_⟩
  · intro e he hstore
    exact get_or_create_session_error alloc now s sid e hstore he
  · intro k
    unfold delete_session
    by_cases hk : k = sid <;> simp [hk, hinv k]
  · simp [delete_session]
  · simp [delete_session]
  · intro k hk
    constructor <;> simp [delete_session, hk]
  · intro registry rootName capability message agent_id
    exact send_message_to_agent_StoreInv registry rootName alloc capability
      now s sid message agent_id hinv

/-- Witness for C3 at a failing allocator over the empty store. -/
theorem claim_C3_store_pairing_witness :
    StoreInv (get_or_create_session (.error "down") "t0" emptyState "s9").1
    ∧ (∀ e, (Except.error "down" : Except String ADKSession) = .error e →
        emptyState.sessions_store "s9" = none →
        get_or_create_session (.error "down") "t0" emptyState "s9"
          = (emptyState, .error ("Error al crear sesión: " ++ e)))
    ∧ StoreInv (delete_session emptyState "s9").1
    ∧ (delete_session emptyState "s9").1.sessions_store "s9" = none
    ∧ (delete_session emptyState "s9").1.sessions_metadata "s9" = none
    ∧ (∀ k, k ≠ "s9" →
        (delete_session emptyState "s9").1.sessions_store k
            = emptyState.sessions_store k
        ∧ (delete_session emptyState "s9").1.sessions_metadata k
            = emptyState.sessions_metadata k)
    ∧ (∀ (registry : String → Option AgentMeta) (rootName : String)
          (capability : String → Except String (List AgentEvent))
          (message : String) (agent_id : Option String),
        StoreInv (send_message_to_agent registry rootName (.error "down")
          capability "t0" emptyState "s9" message agent_id).1) :=
  claim_C3_store_pairing (.error "down") "t0" emptyState "s9"
    emptyState_StoreInv

/-- C4: a blank message, and a message longer than `MAX_MESSAGE_LENGTH`, are
rejected synchronously with a 400 client error, and the server state — in
particular every session's `message_count` — is left untouched. -/
theorem claim_C4_invalid_input_rejected (registry : String → Option AgentMeta)
    (rootName : String) (alloc : Except String ADKSession)
    (capability : String → Except String (List AgentEvent))
    (now fresh_id : String) (maxMsgLen maxRespLen : Nat) (s : ServerState)
    (request : ChatRequest)
    (hbad : request.message = "" ∨ pyStrip request.message = ""
        ∨ request.message.length > maxMsgLen) :
    (chat_with_agent registry rootName alloc capability now fresh_id maxMsgLen
        maxRespLen s request).1 = s
    ∧ (∀ k, msgCount (chat_with_agent registry rootName alloc capability now
        fresh_id maxMsgLen maxRespLen s request).1 k = msgCount s k)
    ∧ ∃ d, (chat_with_agent registry rootName alloc capability now fresh_id
        maxMsgLen maxRespLen s request).2 = .error ⟨400, d⟩ := by
  unfold chat_with_agent
  by_cases h1 : request.message = "" ∨ pyStrip request.message = ""
  · rw [if_pos h1]
    exact ⟨rfl, fun k => rfl, _, rfl⟩
  · have h3 : request.message.length > maxMsgLen := by
      rcases hbad with h | h | h
      · exact absurd (Or.inl h) h1
      · exact absurd (Or.inr h) h1
      · exact h
    rw [if_neg h1, if_pos h3]
    exact ⟨rfl, fun k => rfl, _, rfl⟩

/-- Witness for C4 at the empty message over the empty store. -/
theorem claim_C4_invalid_input_rejected_witness :
    (chat_with_agent sampleRegistry "DATAR" (.ok ⟨"default_user", "adk-1"⟩)
        (fun _ => .ok []) "t0" "fresh-1" 1000 1000 emptyState
        ⟨"", none, none⟩).1 = emptyState
    ∧ (∀ k, msgCount (chat_with_agent sampleRegistry "DATAR"
        (.ok ⟨"default_user", "adk-1"⟩) (fun _ => .ok []) "t0" "fresh-1" 1000
        1000 emptyState ⟨"", none, none⟩).1 k = msgCount emptyState k)
    ∧ ∃ d, (chat_with_agent sampleRegistry "DATAR"
        (.ok ⟨"default_user", "adk-1"⟩) (fun _ => .ok []) "t0" "fresh-1" 1000
        1000 emptyState ⟨"", none, none⟩).2 = .error ⟨400, d⟩ :=
  claim_C4_invalid_input_rejected sampleRegistry "DATAR"
    (.ok ⟨"default_user", "adk-1"⟩) (fun _ => .ok []) "t0" "fresh-1" 1000 1000
    emptyState ⟨"", none, none⟩ (Or.inl rfl)

/-- C5: `GET /api/sessions/{id}` never surfaces an error: an unknown id, and a
failing history capability, both yield the empty-history response with
`message_count = 0` (the handler's return type carries no error case at
all). -/
theorem claim_C5_history_degrades
    (getHistory : Except String (Option (List HistoryTurn)))
    (s : ServerState) (sid : String) :
    (s.sessions_store sid = none →
      get_session_history getHistory s sid = ⟨sid, [], "", 0⟩)
    ∧ (∀ e, getHistory = .error e →
      get_session_history getHistory s sid = ⟨sid, [], "", 0⟩) := by
  constructor
  · intro h
    simp [get_session_history, h]
  · intro e he
    unfold get_session_history
    cases hs : s.sessions_store sid with
    | none => rfl
    | some sess => simp [he]

/-- Witness for C5 at a failing history capability and an unknown id. -/
theorem claim_C5_history_degrades_witness :
    (emptyState.sessions_store "sX" = none →
      get_session_history (.error "down") emptyState "sX"
        = ⟨"sX", [], "", 0⟩)
    ∧ (∀ e, (Except.error "down" :
          Except String (Option (List HistoryTurn))) = .error e →
      get_session_history (.error "down") emptyState "sX"
        = ⟨"sX", [], "", 0⟩) :=
  claim_C5_history_degrades (.error "down") emptyState "sX"

/-- C8: whenever the dispatch run completes, the text returned by
`send_message_to_agent` is non-empty; when the aggregated text is empty or
whitespace-only, it is exactly the deterministic fallback string naming the
root agent. -/
theorem claim_C8_nonempty_response (registry : String → Option AgentMeta)
    (rootName : String) (alloc : Except String ADKSession)
    (capability : String → Except String (List AgentEvent))
    (now : String) (s : ServerState) (session_id message : String)
    (agent_id : Option String) (sess : ADKSession) (events : List AgentEvent)
    (hses : (get_or_create_session alloc now s session_id).2 = .ok sess)
    (hrun : capability (mensaje_completo registry agent_id message)
        = .ok events) :
    ∃ r, (send_message_to_agent registry rootName alloc capability now s
        session_id message agent_id).2 = .ok r
      ∧ r ≠ ""
      ∧ (pyStrip (collectText events) = "" → r = fallbackResponse rootName) := by
  rw [send_message_to_agent_ok registry rootName alloc capability now s
    session_id message agent_id sess events hses hrun]
  by_cases hc : collectText events = "" ∨ pyStrip (collectText events) = ""
  · rw [if_pos hc]
    refine ⟨pyStrip (fallbackResponse rootName), rfl, ?_,
      fun _ => pyStrip_fallbackResponse rootName⟩
    rw [pyStrip_fallbackResponse]
    exact fallbackResponse_ne_empty rootName
  · rw [if_neg hc]
    have h2 : pyStrip (collectText events) ≠ "" := fun h => hc (Or.inr h)
    exact ⟨pyStrip (collectText events), rfl, h2, fun h => absurd h h2⟩

/-- Witness for C8 at a run that emits no text at all. -/
theorem claim_C8_nonempty_response_witness :
    ∃ r, (send_message_to_agent sampleRegistry "DATAR"
        (.ok ⟨"default_user", "adk-1"⟩) (fun _ => .ok []) "t2" oneSessionState
        "s1" "hola" none).2 = .ok r
      ∧ r ≠ ""
      ∧ (pyStrip (collectText []) = "" → r = fallbackResponse "DATAR") :=
  claim_C8_nonempty_response sampleRegistry "DATAR"
    (.ok ⟨"default_user", "adk-1"⟩) (fun _ => .ok []) "t2" oneSessionState
    "s1" "hola" none ⟨"default_user", "adk-1"⟩ []
    (by simp [get_or_create_session, oneSessionState]) rfl

/-- C10: the completed dispatch returns the concatenation of the capability's
text fragments — or the fallback — with surrounding whitespace stripped; the
returned text never starts or ends with whitespace, so it differs from the
raw fragment concatenation whenever that concatenation has a whitespace
boundary character. -/
theorem claim_C10_aggregate_is_stripped (registry : String → Option AgentMeta)
    (rootName : String) (alloc : Except String ADKSession)
    (capability : String → Except String (List AgentEvent))
    (now : String) (s : ServerState) (session_id message : String)
    (agent_id : Option String) (sess : ADKSession) (events : List AgentEvent)
    (hses : (get_or_create_session alloc now s session_id).2 = .ok sess)
    (hrun : capability (mensaje_completo registry agent_id message)
        = .ok events) :
    collectText events = String.join (eventTexts events)
    ∧ (send_message_to_agent registry rootName alloc capability now s
        session_id message agent_id).2
      = .ok (pyStrip
          (if collectText events = "" ∨ pyStrip (collectText events) = ""
           then fallbackResponse rootName else collectText events))
    ∧ (∀ r, (send_message_to_agent registry rootName alloc capability now s
          session_id message agent_id).2 = .ok r →
        (∀ c t, r.data = c :: t → c.isWhitespace = false)
        ∧ (∀ c, r.data.getLast? = some c → c.isWhitespace = false)
        ∧ (∀ c, ((collectText events).data.head? = some c
                  ∨ (collectText events).data.getLast? = some c) →
            c.isWhitespace = true → r ≠ collectText events)) := by
  have hsend := send_message_to_agent_ok registry rootName alloc capability
    now s session_id message agent_id sess events hses hrun
  refine ⟨collectText_eq_join events, by rw [hsend], ?_⟩
  intro r hr
  rw [hsend] at hr
  simp only [Except.ok.injEq] at hr
  have hhead : ∀ c t, r.data = c :: t → c.isWhitespace = false := by
    intro c t h
    by_cases hc : collectText events = "" ∨ pyStrip (collectText events) = ""
    · rw [← hr, if_pos hc, pyStrip_fallbackResponse, fallbackResponse_data]
        at h
      cases h
      decide
    · rw [← hr, if_neg hc] at h
      exact stripChars_head_not (collectText events).data c t h
  have hlast : ∀ c, r.data.getLast? = some c → c.isWhitespace = false := by
    intro c h
    by_cases hc : collectText events = "" ∨ pyStrip (collectText events) = ""
    · rw [← hr, if_pos hc, pyStrip_fallbackResponse] at h
      have hshape : (fallbackResponse rootName).data =
          ('[' :: (rootName.data ++ String.data
            "] procesó tu mensaje, pero no generó una respuesta de texto"))
            ++ ['.'] := by
        rw [fallbackResponse_data]
        simp
      rw [hshape, List.getLast?_concat] at h
      cases h
      decide
    · rw [← hr, if_neg hc] at h
      exact stripChars_getLast?_not (collectText events).data c h
  refine ⟨hhead, hlast, ?_⟩
  intro c hc hw heq
  rcases hc with hh | hl
  · rw [← heq] at hh
    cases hd : r.data with
    | nil => rw [hd] at hh; simp at hh
    | cons a t =>
      rw [hd] at hh
      simp only [List.head?_cons, Option.some_inj] at hh
      rw [← hh] at hw
      rw [hhead a t hd] at hw
      exact Bool.false_ne_true hw
  · rw [← heq] at hl
    rw [hlast c hl] at hw
    exact Bool.false_ne_true hw

/-- Witness for C10 at a run emitting a single fragment with a whitespace
boundary. -/
theorem claim_C10_aggregate_is_stripped_witness :
    collectText [⟨some [⟨some "  hola "⟩]⟩]
      = String.join (eventTexts [⟨some [⟨some "  hola "⟩]⟩])
    ∧ (send_message_to_agent sampleRegistry "DATAR"
        (.ok ⟨"default_user", "adk-1"⟩)
        (fun _ => .ok [⟨some [⟨some "  hola "⟩]⟩]) "t2" oneSessionState "s1"
        "hola" none).2
      = .ok (pyStrip
          (if collectText [⟨some [⟨some "  hola "⟩]⟩] = ""
              ∨ pyStrip (collectText [⟨some [⟨some "  hola "⟩]⟩]) = ""
           then fallbackResponse "DATAR"
           else collectText [⟨some [⟨some "  hola "⟩]⟩]))
    ∧ (∀ r, (send_message_to_agent sampleRegistry "DATAR"
          (.ok ⟨"default_user", "adk-1"⟩)
          (fun _ => .ok [⟨some [⟨some "  hola "⟩]⟩]) "t2" oneSessionState "s1"
          "hola" none).2 = .ok r →
        (∀ c t, r.data = c :: t → c.isWhitespace = false)
        ∧ (∀ c, r.data.getLast? = some c → c.isWhitespace = false)
        ∧ (∀ c, ((collectText [⟨some [⟨some "  hola "⟩]⟩]).data.head? = some c
                  ∨ (collectText [⟨some [⟨some "  hola "⟩]⟩]).data.getLast?
                      = some c) →
            c.isWhitespace = true →
            r ≠ collectText [⟨some [⟨some "  hola "⟩]⟩])) :=
  claim_C10_aggregate_is_stripped sampleRegistry "DATAR"
    (.ok ⟨"default_user", "adk-1"⟩)
    (fun _ => .ok [⟨some [⟨some "  hola "⟩]⟩]) "t2" oneSessionState "s1"
    "hola" none ⟨"default_user", "adk-1"⟩ [⟨some [⟨some "  hola "⟩]⟩]
    (by simp [get_or_create_session, oneSessionState]) rfl

/-- C9: when a validated dispatch through `POST /api/chat` completes with an
aggregated response longer than `MAX_RESPONSE_LENGTH`, the returned
`response` is exactly the first `MAX_RESPONSE_LENGTH` characters of that
aggregated response. -/
theorem claim_C9_response_truncation (registry : String → Option AgentMeta)
    (rootName : String) (alloc : Except String ADKSession)
    (capability : String → Except String (List AgentEvent))
    (now fresh_id : String) (maxMsgLen maxRespLen : Nat) (s : ServerState)
    (request : ChatRequest) (r : String)
    (hblank : ¬(request.message = "" ∨ pyStrip request.message = ""))
    (hlen : ¬(request.message.length > maxMsgLen))
    (hsend : (send_message_to_agent registry rootName alloc capability now s
        (resolve_session_id fresh_id request.session_id) request.message
        request.agent_id).2 = .ok r)
    (hlong : r.length > maxRespLen) :
    ∃ resp, (chat_with_agent registry rootName alloc capability now fresh_id
        maxMsgLen maxRespLen s request).2 = .ok resp
      ∧ resp.response = pySlice r maxRespLen
      ∧ resp.response.length = maxRespLen
      ∧ resp.response.data <+: r.data := by
  have hne : r ≠ "" := by
    intro h
    rw [h] at hlong
    exact Nat.not_lt_zero maxRespLen hlong
  simp only [chat_with_agent]
  rw [if_neg hblank, if_neg hlen]
  rcases hs : send_message_to_agent registry rootName alloc capability now s
      (resolve_session_id fresh_id request.session_id) request.message
      request.agent_id with ⟨s1, rr⟩
  rw [hs] at hsend
  simp only at hsend
  subst hsend
  simp only [hs]
  rw [if_neg hne]
  refine ⟨_, rfl, rfl, ?_, ?_⟩
  · show (pySlice r maxRespLen).length = maxRespLen
    unfold pySlice
    show (r.data.take maxRespLen).length = maxRespLen
    rw [List.length_take]
    exact Nat.min_eq_left (Nat.le_of_lt hlong)
  · exact List.take_prefix maxRespLen r.data

/-- Witness for C9 with a six-character aggregate and a three-character cap. -/
theorem claim_C9_response_truncation_witness :
    ∃ resp, (chat_with_agent sampleRegistry "DATAR"
        (.ok ⟨"default_user", "adk-1"⟩)
        (fun _ => .ok [⟨some [⟨some "abcdef"⟩]⟩]) "t2" "fresh-1" 1000 3
        oneSessionState ⟨"hola", some "s1", none⟩).2 = .ok resp
      ∧ resp.response = pySlice "abcdef" 3
      ∧ resp.response.length = 3
      ∧ resp.response.data <+: "abcdef".data :=
  claim_C9_response_truncation sampleRegistry "DATAR"
    (.ok ⟨"default_user", "adk-1"⟩) (fun _ => .ok [⟨some [⟨some "abcdef"⟩]⟩])
    "t2" "fresh-1" 1000 3 oneSessionState ⟨"hola", some "s1", none⟩ "abcdef"
    (by decide) (by decide) (by rfl) (by decide)

/-- On a validated request whose dispatch core returns non-empty text,
`chat_with_agent` answers 200 with the truncated text and the resolved agent
name. -/
theorem chat_with_agent_ok (registry : String → Option AgentMeta)
    (rootName : String) (alloc : Except String ADKSession)
    (capability : String → Except String (List AgentEvent))
    (now fresh_id : String) (maxMsgLen maxRespLen : Nat) (s : ServerState)
    (request : ChatRequest) (r : String)
    (hblank : ¬(request.message = "" ∨ pyStrip request.message = ""))
    (hlen : ¬(request.message.length > maxMsgLen))
    (hsend : (send_message_to_agent registry rootName alloc capability now s
        (resolve_session_id fresh_id request.session_id) request.message
        request.agent_id).2 = .ok r)
    (hne : r ≠ "") :
    chat_with_agent registry rootName alloc capability now fresh_id maxMsgLen
        maxRespLen s request
      = ((send_message_to_agent registry rootName alloc capability now s
            (resolve_session_id fresh_id request.session_id) request.message
            request.agent_id).1,
         .ok ⟨pySlice r maxRespLen,
              resolve_agent_name registry rootName request.agent_id,
              resolve_session_id fresh_id request.session_id, now⟩) := by
  simp only [chat_with_agent]
  rw [if_neg hblank, if_neg hlen]
  rcases hs : send_message_to_agent registry rootName alloc capability now s
      (resolve_session_id fresh_id request.session_id) request.message
      request.agent_id with ⟨s1, rr⟩
  rw [hs] at hsend
  simp only at hsend
  subst hsend
  simp [if_neg hne]

/-- C7: a supplied hint that resolves in the registry makes the dispatch
forward the original message prefixed with the directed-to annotation naming
the hinted agent, and the result's `agent_name` is that display name; an
absent, empty or unknown hint forwards the raw message unmodified, without
error, and the result's `agent_name` is the root agent's name.  The first
conjunct states that the capability is consulted only at the routed
message. -/
theorem claim_C7_routing_hint (registry : String → Option AgentMeta)
    (rootName : String) (alloc : Except String ADKSession)
    (capability : String → Except String (List AgentEvent))
    (now fresh_id : String) (maxMsgLen maxRespLen : Nat) (s : ServerState)
    (request : ChatRequest) (r : String)
    (hblank : ¬(request.message = "" ∨ pyStrip request.message = ""))
    (hlen : ¬(request.message.length > maxMsgLen))
    (hsend : (send_message_to_agent registry rootName alloc capability now s
        (resolve_session_id fresh_id request.session_id) request.message
        request.agent_id).2 = .ok r)
    (hne : r ≠ "") :
    (∀ sid,
      send_message_to_agent registry rootName alloc capability now s sid
          request.message request.agent_id
        = send_message_to_agent registry rootName alloc
            (fun _ => capability
              (mensaje_completo registry request.agent_id request.message))
            now s sid request.message request.agent_id)
    ∧ (∀ aid meta, request.agent_id = some aid → aid ≠ "" →
        registry aid = some meta →
        mensaje_completo registry request.agent_id request.message
          = "[Dirigido a " ++ meta.nombre ++ "]: " ++ request.message
        ∧ ∃ resp, (chat_with_agent registry rootName alloc capability now
            fresh_id maxMsgLen maxRespLen s request).2 = .ok resp
          ∧ resp.agent_name = meta.nombre)
    ∧ ((request.agent_id = none
        ∨ ∃ aid, request.agent_id = some aid
            ∧ (aid = "" ∨ registry aid = none)) →
        mensaje_completo registry request.agent_id request.message
          = request.message
        ∧ ∃ resp, (chat_with_agent registry rootName alloc capability now
            fresh_id maxMsgLen maxRespLen s request).2 = .ok resp
          ∧ resp.agent_name = rootName) := by
  have hchat := chat_with_agent_ok registry rootName alloc capability now
    fresh_id maxMsgLen maxRespLen s request r hblank hlen hsend hne
  refine ⟨fun _ => rfl, ?_, ?_⟩
  · intro aid meta ha hne' hreg
    constructor
    · simp [mensaje_completo, ha, hne', hreg]
    · refine ⟨_, by rw [hchat], ?_⟩
      simp [resolve_agent_name, ha, hne', hreg]
  · intro hmiss
    constructor
    · rcases hmiss with h | ⟨aid, ha, h | h⟩
      · simp [mensaje_completo, h]
      · simp [mensaje_completo, ha, h]
      · by_cases he : aid = ""
        · simp [mensaje_completo, ha, he]
        · simp [mensaje_completo, ha, he, h]
    · refine ⟨_, by rw [hchat], ?_⟩
      rcases hmiss with h | ⟨aid, ha, h | h⟩
      · simp [resolve_agent_name, h]
      · simp [resolve_agent_name, ha, h]
      · by_cases he : aid = ""
        · simp [resolve_agent_name, ha, he]
        · simp [resolve_agent_name, ha, he, h]

/-- Witness for C7 at the resolvable hint `gente_pasto` over a known
session. -/
theorem claim_C7_routing_hint_witness :
    (∀ sid,
      send_message_to_agent sampleRegistry "DATAR"
          (.ok ⟨"default_user", "adk-1"⟩)
          (fun _ => .ok [⟨some [⟨some "resp"⟩]⟩]) "t2" oneSessionState sid
          "hola" (some "gente_pasto")
        = send_message_to_agent sampleRegistry "DATAR"
            (.ok ⟨"default_user", "adk-1"⟩)
            (fun _ => (fun _ => .ok [⟨some [⟨some "resp"⟩]⟩])
              (mensaje_completo sampleRegistry (some "gente_pasto") "hola"))
            "t2" oneSessionState sid "hola" (some "gente_pasto"))
    ∧ (∀ aid meta, (some "gente_pasto" : Option String) = some aid →
        aid ≠ "" → sampleRegistry aid = some meta →
        mensaje_completo sampleRegistry (some "gente_pasto") "hola"
          = "[Dirigido a " ++ meta.nombre ++ "]: " ++ "hola"
        ∧ ∃ resp, (chat_with_agent sampleRegistry "DATAR"
            (.ok ⟨"default_user", "adk-1"⟩)
            (fun _ => .ok [⟨some [⟨some "resp"⟩]⟩]) "t2" "fresh-1" 1000 1000
            oneSessionState ⟨"hola", some "s1", some "gente_pasto"⟩).2
              = .ok resp
          ∧ resp.agent_name = meta.nombre)
    ∧ (((some "gente_pasto" : Option String) = none
        ∨ ∃ aid, (some "gente_pasto" : Option String) = some aid
            ∧ (aid = "" ∨ sampleRegistry aid = none)) →
        mensaje_completo sampleRegistry (some "gente_pasto") "hola" = "hola"
        ∧ ∃ resp, (chat_with_agent sampleRegistry "DATAR"
            (.ok ⟨"default_user", "adk-1"⟩)
            (fun _ => .ok [⟨some [⟨some "resp"⟩]⟩]) "t2" "fresh-1" 1000 1000
            oneSessionState ⟨"hola", some "s1", some "gente_pasto"⟩).2
              = .ok resp
          ∧ resp.agent_name = "DATAR") :=
  claim_C7_routing_hint sampleRegistry "DATAR"
    (.ok ⟨"default_user", "adk-1"⟩) (fun _ => .ok [⟨some [⟨some "resp"⟩]⟩])
    "t2" "fresh-1" 1000 1000 oneSessionState
    ⟨"hola", some "s1", some "gente_pasto"⟩ "resp" (by decide) (by decide)
    (by rfl) (by decide)

/-- C2 fails on the code: dispatch with a freshly minted session id and the
endpoint's fixed hint rejects the empty message with a 400 client error,
while `POST /api/chat/gente_pasto` accepts the very same empty message and
answers 200. -/
theorem claim_C2_counterexample :
    (chat_with_agent sampleRegistry "DATAR" (.ok ⟨"default_user", "adk-1"⟩)
        (fun _ => .ok []) "t0" "fresh-1" 1000 1000 emptyState
        ⟨"", none, some "gente_pasto"⟩).2
      = .error ⟨400, "El mensaje no puede estar vacío"⟩
    ∧ ∃ resp, (chat_gente_pasto sampleRegistry "DATAR"
        (.ok ⟨"default_user", "adk-1"⟩) (fun _ => .ok []) "t0" "fresh-1"
        emptyState "").2 = .ok resp := by
  exact ⟨rfl, _, rfl⟩

/-- C2 amended: each per-agent endpoint calls the dispatch core with a fresh
session id and its fixed agent id as hint and returns the core's text
verbatim, but it performs none of `POST /api/chat`'s input validation and no
response truncation: its only error status is 500, never 400. -/
theorem claim_C2_endpoint_is_unchecked_dispatch_core
    (registry : String → Option AgentMeta) (rootName : String)
    (alloc : Except String ADKSession)
    (capability : String → Except String (List AgentEvent))
    (now fresh_id : String) (s : ServerState) (message : String) :
    (chat_gente_pasto registry rootName alloc capability now fresh_id s
        message).1
      = (send_message_to_agent registry rootName alloc capability now s
          fresh_id message (some "gente_pasto")).1
    ∧ (∀ r meta,
        (send_message_to_agent registry rootName alloc capability now s
          fresh_id message (some "gente_pasto")).2 = .ok r →
        registry "gente_pasto" = some meta →
        (chat_gente_pasto registry rootName alloc capability now fresh_id s
          message).2 = .ok ⟨r, meta.nombre, "gente_pasto"⟩)
    ∧ (∀ e, (chat_gente_pasto registry rootName alloc capability now fresh_id
        s message).2 = .error e → e.status_code = 500) := by
  unfold chat_gente_pasto chat_agent_endpoint
  rcases hs : send_message_to_agent registry rootName alloc capability now s
      fresh_id message (some "gente_pasto") with ⟨s1, rr⟩
  cases rr with
  | error e =>
    refine ⟨rfl, ?_, ?_⟩
    · intro r meta hr
      simp at hr
    · intro e' he'
      simp only [Except.error.injEq] at he'
      rw [← he']
  | ok r =>
    cases hreg : registry "gente_pasto" with
    | some meta =>
      refine ⟨rfl, ?_, ?_⟩
      · intro r' meta' hr' hmeta'
        simp only [Except.ok.injEq] at hr'
        have hmm : meta = meta' := Option.some_inj.1 hmeta'
        subst hmm
        subst hr'
        rfl
      · intro e' he'
        simp at he'
    | none =>
      refine ⟨rfl, ?_, ?_⟩
      · intro r' meta' hr' hmeta'
        exact Option.noConfusion hmeta'
      · intro e' he'
        simp only [Except.error.injEq] at he'
        rw [← he']

/-- Witness for the amended C2 at a concrete successful dispatch. -/
theorem claim_C2_endpoint_is_unchecked_dispatch_core_witness :
    (chat_gente_pasto sampleRegistry "DATAR" (.ok ⟨"default_user", "adk-1"⟩)
        (fun _ => .ok [⟨some [⟨some "resp"⟩]⟩]) "t0" "fresh-1" emptyState
        "hola").1
      = (send_message_to_agent sampleRegistry "DATAR"
          (.ok ⟨"default_user", "adk-1"⟩)
          (fun _ => .ok [⟨some [⟨some "resp"⟩]⟩]) "t0" emptyState "fresh-1"
          "hola" (some "gente_pasto")).1
    ∧ (∀ r meta,
        (send_message_to_agent sampleRegistry "DATAR"
          (.ok ⟨"default_user", "adk-1"⟩)
          (fun _ => .ok [⟨some [⟨some "resp"⟩]⟩]) "t0" emptyState "fresh-1"
          "hola" (some "gente_pasto")).2 = .ok r →
        sampleRegistry "gente_pasto" = some meta →
        (chat_gente_pasto sampleRegistry "DATAR"
          (.ok ⟨"default_user", "adk-1"⟩)
          (fun _ => .ok [⟨some [⟨some "resp"⟩]⟩]) "t0" "fresh-1" emptyState
          "hola").2 = .ok ⟨r, meta.nombre, "gente_pasto"⟩)
    ∧ (∀ e, (chat_gente_pasto sampleRegistry "DATAR"
        (.ok ⟨"default_user", "adk-1"⟩)
        (fun _ => .ok [⟨some [⟨some "resp"⟩]⟩]) "t0" "fresh-1" emptyState
        "hola").2 = .error e → e.status_code = 500) :=
  claim_C2_endpoint_is_unchecked_dispatch_core sampleRegistry "DATAR"
    (.ok ⟨"default_user", "adk-1"⟩) (fun _ => .ok [⟨some [⟨some "resp"⟩]⟩])
    "t0" "fresh-1" emptyState "hola"

/-- A history whose every turn carries both a user and a model message yields
exactly two entries per turn. -/
theorem historyMessages_length_full (turns : List HistoryTurn) (ts : String)
    (h : ∀ t ∈ turns, t.user_message.isSome ∧ t.model_message.isSome) :
    (historyMessages turns ts).length = 2 * turns.length := by
  induction turns with
  | nil => simp [historyMessages]
  | cons t rest ih =>
    obtain ⟨hu, hm⟩ := h t (List.mem_cons_self t rest)
    rcases Option.isSome_iff_exists.1 hu with ⟨pu, hpu⟩
    rcases Option.isSome_iff_exists.1 hm with ⟨pm, hpm⟩
    have ih' := ih (fun x hx => h x (List.mem_cons_of_mem t hx))
    simp only [historyMessages, List.flatMap_cons, List.length_append,
      hpu, hpm] at ih' ⊢
    rw [ih']
    simp [Nat.mul_succ]
    omega

/-- C6 fails on the code: session `"s1"` has a stored `message_count` of 1,
but `GET /api/sessions/s1` reports `message_count = 0` because the handler
returns the length of the freshly derived message list, not the stored
counter. -/
theorem claim_C6_counterexample :
    msgCount oneSessionState "s1" = some 1
    ∧ (get_session_history (.ok (some [])) oneSessionState "s1").message_count
        = 0 := by
  exact ⟨rfl, rfl⟩

/-- C6 amended: for a known session id whose history call succeeds, the
`message_count` field returned by `GET /api/sessions/{id}` equals the length
of the message list derived from the capability's history (two entries per
fully populated turn) — not the session's stored `message_count`. -/
theorem claim_C6_count_is_derived_history_length
    (getHistory : Except String (Option (List HistoryTurn)))
    (s : ServerState) (sid : String) (sess : ADKSession)
    (turns : List HistoryTurn)
    (hstore : s.sessions_store sid = some sess)
    (hhist : getHistory = .ok (some turns)) :
    (get_session_history getHistory s sid).message_count
      = (get_session_history getHistory s sid).messages.length
    ∧ (get_session_history getHistory s sid).messages
      = historyMessages turns
          (((s.sessions_metadata sid).map (·.last_activity)).getD "")
    ∧ ((∀ t ∈ turns, t.user_message.isSome ∧ t.model_message.isSome) →
        (get_session_history getHistory s sid).message_count
          = 2 * turns.length) := by
  unfold get_session_history
  rw [hstore, hhist]
  refine ⟨rfl, rfl, ?_⟩
  intro hfull
  exact historyMessages_length_full turns _ hfull

/-- Witness for the amended C6 at one fully populated turn over a session
whose stored count is 1 (derived count 2). -/
theorem claim_C6_count_is_derived_history_length_witness :
    (get_session_history
        (.ok (some [⟨some [⟨some "hola"⟩], some [⟨some "resp"⟩]⟩]))
        oneSessionState "s1").message_count
      = (get_session_history
        (.ok (some [⟨some [⟨some "hola"⟩], some [⟨some "resp"⟩]⟩]))
        oneSessionState "s1").messages.length
    ∧ (get_session_history
        (.ok (some [⟨some [⟨some "hola"⟩], some [⟨some "resp"⟩]⟩]))
        oneSessionState "s1").messages
      = historyMessages [⟨some [⟨some "hola"⟩], some [⟨some "resp"⟩]⟩]
          (((oneSessionState.sessions_metadata "s1").map
            (·.last_activity)).getD "")
    ∧ ((∀ t ∈ [(⟨some [⟨some "hola"⟩], some [⟨some "resp"⟩]⟩ : HistoryTurn)],
          t.user_message.isSome ∧ t.model_message.isSome) →
        (get_session_history
          (.ok (some [⟨some [⟨some "hola"⟩], some [⟨some "resp"⟩]⟩]))
          oneSessionState "s1").message_count
          = 2 * [(⟨some [⟨some "hola"⟩], some [⟨some "resp"⟩]⟩ :
              HistoryTurn)].length) :=
  claim_C6_count_is_derived_history_length
    (.ok (some [⟨some [⟨some "hola"⟩], some [⟨some "resp"⟩]⟩]))
    oneSessionState "s1" ⟨"default_user", "adk-1"⟩
    [⟨some [⟨some "hola"⟩], some [⟨some "resp"⟩]⟩] (by decide) rfl
